import Mathlib

/-!
Shallow embedding of `script/02下载jdks.py`: a sequential JDK downloader.
The script iterates `range(8, 22)`, and for each version creates a directory
`jdk{v}`, issues a streaming HTTP GET against the Adoptium latest-binary
endpoint, classifies the response (404 / other HTTP error / network error /
unknown error), derives the file name from the final post-redirect URL
(percent-decoded last path segment), skips the download when the destination
file already exists, and otherwise streams the body in 8192-byte chunks into
the destination file while updating a progress bar.

The filesystem is modelled as a list of directories and an association list
of file paths to byte contents; the network is an explicit input (either a
transport-level failure of `requests.get`, or an HTTP response with a status,
a final URL, an optional content-length header, a body, and an optional
mid-stream failure point). Bytes are naturals.
-/

namespace JdkFetch

/-- Fixed Adoptium API parameter `OS_TYPE = "linux"`. -/
def OS_TYPE : String := "linux"

/-- Fixed Adoptium API parameter `ARCH_TYPE = "x64"`. -/
def ARCH_TYPE : String := "x64"

/-- Fixed Adoptium API parameter `IMAGE_TYPE = "jdk"`. -/
def IMAGE_TYPE : String := "jdk"

/-- Fixed Adoptium API parameter `JVM_IMPL = "hotspot"`. -/
def JVM_IMPL : String := "hotspot"

/-- Fixed Adoptium API parameter `HEAP_SIZE = "normal"`. -/
def HEAP_SIZE : String := "normal"

/-- Fixed Adoptium API parameter `VENDOR = "eclipse"`. -/
def VENDOR : String := "eclipse"

/-- Fixed Adoptium API parameter `RELEASE_TYPE = "ga"`. -/
def RELEASE_TYPE : String := "ga"

/-- `JDK_VERSIONS = range(8, 22)`: the major versions processed by `main`. -/
def JDK_VERSIONS : List Nat := List.range' 8 14

/-- The chunk size passed to `r.iter_content(chunk_size=8192)`. -/
def CHUNK_SIZE : Nat := 8192

/-- The mode string passed to `open(destination_path, 'wb')`. -/
def download_open_mode : String := "wb"

/-- `version_dir = Path(f"jdk{version}")`. -/
def versionDir (version : Nat) : String := "jdk" ++ toString version

/-- `api_url`: the templated Adoptium latest-binary URL built in `download_jdk`. -/
def api_url (version : Nat) : String :=
  "https://api.adoptium.net/v3/binary/latest/" ++ toString version ++ "/" ++
    RELEASE_TYPE ++ "/" ++ OS_TYPE ++ "/" ++ ARCH_TYPE ++ "/" ++ IMAGE_TYPE ++
    "/" ++ JVM_IMPL ++ "/" ++ HEAP_SIZE ++ "/" ++ VENDOR

/-- Filesystem state: the set of existing directories and an association list
from file paths to byte contents. Nothing else of the OS state matters to the
script. -/
structure FS where
  dirs : List String
  files : List (String × List Nat)
deriving DecidableEq, Repr

/-- `destination_path.exists()` for a file path. -/
def FS.fileExists (fs : FS) (p : String) : Bool :=
  fs.files.any (fun e => e.1 == p)

/-- Does a directory exist at `p`? -/
def FS.dirExists (fs : FS) (p : String) : Bool :=
  fs.dirs.contains p

/-- Content of the file at `p`, if any. -/
def FS.lookupFile (fs : FS) (p : String) : Option (List Nat) :=
  (fs.files.find? (fun e => e.1 == p)).map (fun e => e.2)

/-- `open(p, 'wb')` followed by writing `c`: creates the file, truncating any
previous content at the same path. -/
def FS.writeFile (fs : FS) (p : String) (c : List Nat) : FS :=
  { fs with files := (p, c) :: fs.files.filter (fun e => e.1 != p) }

/-- The effect of a successful `Path(p).mkdir(parents=True, exist_ok=True)`:
add the directory if absent (the per-version directory has no path separator,
so `parents=True` has nothing extra to create). -/
def FS.mkdirAdd (fs : FS) (p : String) : FS :=
  if fs.dirExists p then fs else { fs with dirs := p :: fs.dirs }

/-- Python exceptions that can escape `download_jdk`. With `exist_ok=True`,
`Path.mkdir` still raises `FileExistsError` when a non-directory entry
occupies the target path. -/
inductive PyExc where
  | fileExistsError (path : String)
deriving DecidableEq, Repr

/-- `Path(p).mkdir(parents=True, exist_ok=True)`: raises `FileExistsError`
when a regular file sits at `p`; otherwise succeeds, idempotently. -/
def FS.mkdir (fs : FS) (p : String) : Except PyExc FS :=
  if fs.fileExists p then Except.error (PyExc.fileExistsError p)
  else Except.ok (fs.mkdirAdd p)

/-- Which `except` clause a mid-stream exception lands in:
`requests.exceptions.RequestException` (network-level) or any other
exception. -/
inductive ExcKind where
  | requestExc
  | otherExc
deriving DecidableEq, Repr

/-- One HTTP response as seen by the script: final (post-redirect) URL
`r.url`, status code, optional `content-length` header, the body bytes, and
an optional mid-stream failure: `some (k, e)` means the chunk iterator raises
exception kind `e` after yielding `k` chunks (if at least `k + 1` chunks
remain). -/
structure HttpResp where
  status : Nat
  finalUrl : String
  contentLength : Option Nat
  body : List Nat
  streamFail : Option (Nat × ExcKind)
deriving DecidableEq, Repr

/-- The behaviour of `requests.get(api_url, ...)`: either a transport-level
`RequestException` (DNS failure, refused connection, timeout, ...) with a
detail message, or an HTTP response. -/
inductive NetBehavior where
  | reqFail (detail : String)
  | response (r : HttpResp)
deriving DecidableEq, Repr

/-- The five outcome classifications of one `download_jdk` call, each carrying
the human-readable detail the script prints. -/
inductive Outcome where
  | downloaded (path : String)
  | alreadyPresent (path : String)
  | notFound (version : Nat)
  | networkError (detail : String)
  | unknownError (detail : String)
deriving DecidableEq, Repr

/-- Result of one `download_jdk` call that returned (rather than raised):
the filesystem afterwards, the outcome classification, the number of body
bytes transferred from the response, the cumulative progress values reported
to the progress bar (one per chunk), and the `total_size` hint read from the
`content-length` header (`0` when absent). -/
structure ProcResult where
  fs : FS
  outcome : Outcome
  transferred : Nat
  progress : List Nat
  sizeHint : Nat
deriving DecidableEq, Repr

/-- Value of a hexadecimal digit character, as accepted by `urllib`'s
percent-decoding. -/
def hexVal (c : Char) : Option Nat :=
  if '0' ≤ c ∧ c ≤ '9' then some (c.toNat - '0'.toNat)
  else if 'a' ≤ c ∧ c ≤ 'f' then some (c.toNat - 'a'.toNat + 10)
  else if 'A' ≤ c ∧ c ≤ 'F' then some (c.toNat - 'A'.toNat + 10)
  else none

/-- `urllib.parse.unquote` on a character list: replace each `%hh` escape by
the character with code `hh`; malformed escapes are left untouched. -/
def unquoteChars : List Char → List Char
  | '%' :: h1 :: h2 :: rest =>
    match hexVal h1, hexVal h2 with
    | some a, some b => Char.ofNat (16 * a + b) :: unquoteChars rest
    | _, _ => '%' :: unquoteChars (h1 :: h2 :: rest)
  | c :: rest => c :: unquoteChars rest
  | [] => []

/-- `urllib.parse.unquote` on a string. -/
def unquote (s : String) : String := String.mk (unquoteChars s.data)

/-- Scan for the last nonempty `/`-separated segment: `cur` is the segment
being read, `best` the last nonempty segment completed so far. -/
def pathNameAux (cur best : List Char) : List Char → List Char
  | [] => if cur = [] then best else cur
  | c :: rest =>
    if c = '/' then pathNameAux [] (if cur = [] then best else cur) rest
    else pathNameAux (cur ++ [c]) best rest

/-- `Path(s).name`: the last nonempty `/`-separated component of the path
(empty when there is none, as for `Path("/")`). -/
def pathName (s : String) : String :=
  String.mk (pathNameAux [] [] s.data)

/-- `r.iter_content(chunk_size=sz)`: split the body into successive chunks of
`sz` bytes (the last chunk may be shorter). -/
def iter_content (sz : Nat) : List Nat → List (List Nat)
  | [] => []
  | a :: rest =>
    (a :: List.take (sz - 1) rest) :: iter_content sz (List.drop (sz - 1) rest)
termination_by l => l.length
decreasing_by
  simp only [List.length_cons, List.length_drop]
  omega

/-- The chunks actually yielded by the iterator before a possible mid-stream
failure. -/
def deliveredChunks (r : HttpResp) : List (List Nat) :=
  match r.streamFail with
  | none => iter_content CHUNK_SIZE r.body
  | some (k, _) => (iter_content CHUNK_SIZE r.body).take k

/-- Whether (and with what kind) the stream raises mid-download: only when
the declared failure point lies strictly inside the chunk sequence. -/
def streamRaises (r : HttpResp) : Option ExcKind :=
  match r.streamFail with
  | none => none
  | some (k, e) =>
    if k < (iter_content CHUNK_SIZE r.body).length then some e else none

/-- Cumulative bytes-written values reported via `bar.update(bytes_written)`
after each chunk, starting from `acc` bytes already written. -/
def progressTrace (acc : Nat) : List (List Nat) → List Nat
  | [] => []
  | c :: cs => (acc + c.length) :: progressTrace (acc + c.length) cs

/-- `download_jdk(version)`, as an explicit function of the network behaviour
and the filesystem. Mirrors the source line by line:
directory creation (outside the `try` block, so its exception propagates),
`requests.get` + `raise_for_status`, file-name derivation from the final URL,
the existence check, and the chunked streaming write. Returns
`Except.error` exactly when the Python function raises. -/
def download_jdk (version : Nat) (net : NetBehavior) (fs0 : FS) :
    Except PyExc ProcResult :=
  match fs0.mkdir (versionDir version) with
  | Except.error e => Except.error e
  | Except.ok fs1 =>
    match net with
    | NetBehavior.reqFail detail =>
      Except.ok ⟨fs1, Outcome.networkError detail, 0, [], 0⟩
    | NetBehavior.response r =>
      if 400 ≤ r.status ∧ r.status < 600 then
        if r.status = 404 then
          Except.ok ⟨fs1, Outcome.notFound version, 0, [], 0⟩
        else
          Except.ok ⟨fs1,
            Outcome.networkError ("HTTP error " ++ toString r.status), 0, [], 0⟩
      else
        let filename := pathName (unquote r.finalUrl)
        let destination_path := versionDir version ++ "/" ++ filename
        if fs1.fileExists destination_path then
          Except.ok ⟨fs1, Outcome.alreadyPresent destination_path, 0, [], 0⟩
        else
          let total_size := r.contentLength.getD 0
          let chunks := deliveredChunks r
          let content := chunks.flatten
          let fs2 := fs1.writeFile destination_path content
          let prog := progressTrace 0 chunks
          match streamRaises r with
          | none =>
            Except.ok ⟨fs2, Outcome.downloaded destination_path,
              content.length, prog, total_size⟩
          | some ExcKind.requestExc =>
            Except.ok ⟨fs2, Outcome.networkError "request failed mid-stream",
              content.length, prog, total_size⟩
          | some ExcKind.otherExc =>
            Except.ok ⟨fs2, Outcome.unknownError "unexpected error mid-stream",
              content.length, prog, total_size⟩

/-- The `for version in JDK_VERSIONS` loop of `main`, over an arbitrary
version list: sequentially runs `download_jdk`, threading the filesystem and
collecting outcomes; an uncaught exception aborts the remaining iterations. -/
def runList (net : Nat → NetBehavior) : List Nat → FS →
    Except PyExc (FS × List Outcome)
  | [], fs => Except.ok (fs, [])
  | v :: vs, fs =>
    match download_jdk v (net v) fs with
    | Except.error e => Except.error e
    | Except.ok res =>
      match runList net vs res.fs with
      | Except.error e => Except.error e
      | Except.ok (fs', outs) => Except.ok (fs', res.outcome :: outs)

/-- `main`: process every version in `JDK_VERSIONS` in order. -/
def runAll (net : Nat → NetBehavior) (fs : FS) :
    Except PyExc (FS × List Outcome) :=
  runList net JDK_VERSIONS fs

/-! ### Helper lemmas about the filesystem model -/

theorem FS.mkdirAdd_files (fs : FS) (p : String) :
    (fs.mkdirAdd p).files = fs.files := by
  unfold FS.mkdirAdd
  split <;> rfl

theorem FS.mkdirAdd_fileExists (fs : FS) (p q : String) :
    (fs.mkdirAdd p).fileExists q = fs.fileExists q := by
  unfold FS.fileExists
  rw [FS.mkdirAdd_files]

theorem FS.mkdirAdd_lookupFile (fs : FS) (p q : String) :
    (fs.mkdirAdd p).lookupFile q = fs.lookupFile q := by
  unfold FS.lookupFile
  rw [FS.mkdirAdd_files]

theorem FS.mkdirAdd_dirExists_self (fs : FS) (p : String) :
    (fs.mkdirAdd p).dirExists p = true := by
  unfold FS.mkdirAdd
  split <;> simp_all [FS.dirExists]

theorem FS.mkdirAdd_of_dirExists (fs : FS) (p : String)
    (h : fs.dirExists p = true) : fs.mkdirAdd p = fs := by
  unfold FS.mkdirAdd
  simp [h]

theorem FS.writeFile_dirs (fs : FS) (p : String) (c : List Nat) :
    (fs.writeFile p c).dirs = fs.dirs := rfl

theorem FS.writeFile_dirExists (fs : FS) (p : String) (c : List Nat)
    (q : String) : (fs.writeFile p c).dirExists q = fs.dirExists q := rfl

theorem FS.lookupFile_writeFile_self (fs : FS) (p : String) (c : List Nat) :
    (fs.writeFile p c).lookupFile p = some c := by
  simp [FS.lookupFile, FS.writeFile, List.find?]

theorem FS.lookupFile_writeFile_ne (fs : FS) (p q : String) (c : List Nat)
    (h : q ≠ p) : (fs.writeFile p c).lookupFile q = fs.lookupFile q := by
  unfold FS.lookupFile FS.writeFile
  rw [List.find?_cons_of_neg _ (by simp; exact fun hpq => h hpq.symm)]
  congr 1
  induction fs.files with
  | nil => rfl
  | cons e es ih =>
    rw [List.filter_cons]
    by_cases he : e.1 = p
    · rw [if_neg (by simp [he])]
      rw [List.find?_cons_of_neg _ (by simp [he]; exact fun hpq => h hpq.symm)]
      exact ih
    · rw [if_pos (by simp [he])]
      by_cases heq : e.1 = q
      · rw [List.find?_cons_of_pos _ (by simp [heq]),
          List.find?_cons_of_pos _ (by simp [heq])]
      · rw [List.find?_cons_of_neg _ (by simp [heq]),
          List.find?_cons_of_neg _ (by simp [heq])]
        exact ih

theorem FS.fileExists_eq_isSome_lookupFile (fs : FS) (p : String) :
    fs.fileExists p = (fs.lookupFile p).isSome := by
  unfold FS.fileExists FS.lookupFile
  induction fs.files with
  | nil => rfl
  | cons e es ih =>
    by_cases he : e.1 = p
    · rw [List.any_cons, List.find?_cons_of_pos _ (by simp [he])]
      simp [he]
    · rw [List.any_cons, List.find?_cons_of_neg _ (by simp [he])]
      simp only [show (e.1 == p) = false by simp [he], Bool.false_or]
      exact ih

theorem FS.lookupFile_some_fileExists (fs : FS) (p : String) (c : List Nat)
    (h : fs.lookupFile p = some c) : fs.fileExists p = true := by
  rw [FS.fileExists_eq_isSome_lookupFile, h]
  rfl

theorem FS.fileExists_false_lookupFile (fs : FS) (p : String)
    (h : fs.fileExists p = false) : fs.lookupFile p = none := by
  rw [FS.fileExists_eq_isSome_lookupFile] at h
  exact Option.not_isSome_iff_eq_none.mp (by simp [h])

/-! ### Helper lemmas about chunked streaming -/

theorem iter_content_nil (sz : Nat) : iter_content sz [] = [] := by
  rw [iter_content]

theorem iter_content_cons (sz a : Nat) (rest : List Nat) :
    iter_content sz (a :: rest) =
      (a :: List.take (sz - 1) rest) ::
        iter_content sz (List.drop (sz - 1) rest) := by
  rw [iter_content]

/-- Concatenating all chunks recovers the whole body: nothing is lost or
duplicated by chunking. -/
theorem iter_content_flatten (sz : Nat) (l : List Nat) :
    (iter_content sz l).flatten = l := by
  suffices h : ∀ n (l : List Nat), l.length = n →
      (iter_content sz l).flatten = l from h l.length l rfl
  intro n
  induction n using Nat.strong_induction_on with
  | _ n ih =>
    intro l hn
    cases l with
    | nil => simp [iter_content_nil]
    | cons a rest =>
      have hlt : (List.drop (sz - 1) rest).length < n := by
        simp only [List.length_cons] at hn
        simp only [List.length_drop]
        omega
      rw [iter_content_cons, List.flatten_cons, ih _ hlt _ rfl,
        List.cons_append, List.take_append_drop]

/-- Every chunk yielded by `iter_content` holds at most `sz` bytes. -/
theorem iter_content_chunk_le (sz : Nat) (hsz : 1 ≤ sz) (l : List Nat) :
    ∀ c ∈ iter_content sz l, c.length ≤ sz := by
  suffices h : ∀ n (l : List Nat), l.length = n →
      ∀ c ∈ iter_content sz l, c.length ≤ sz from h l.length l rfl
  intro n
  induction n using Nat.strong_induction_on with
  | _ n ih =>
    intro l hn
    cases l with
    | nil =>
      intro c hc
      rw [iter_content_nil] at hc
      simp at hc
    | cons a rest =>
      intro c hc
      rw [iter_content_cons] at hc
      rcases List.mem_cons.mp hc with hc | hc
      · subst hc
        simp only [List.length_cons, List.length_take]
        omega
      · have hlt : (List.drop (sz - 1) rest).length < n := by
          simp only [List.length_cons] at hn
          simp only [List.length_drop]
          omega
        exact ih _ hlt _ rfl c hc

/-- Every chunk yielded by `iter_content` is nonempty. -/
theorem iter_content_chunk_ne_nil (sz : Nat) (l : List Nat) :
    ∀ c ∈ iter_content sz l, c ≠ [] := by
  suffices h : ∀ n (l : List Nat), l.length = n →
      ∀ c ∈ iter_content sz l, c ≠ [] from h l.length l rfl
  intro n
  induction n using Nat.strong_induction_on with
  | _ n ih =>
    intro l hn
    cases l with
    | nil =>
      intro c hc
      rw [iter_content_nil] at hc
      simp at hc
    | cons a rest =>
      intro c hc
      rw [iter_content_cons] at hc
      rcases List.mem_cons.mp hc with hc | hc
      · subst hc
        simp
      · have hlt : (List.drop (sz - 1) rest).length < n := by
          simp only [List.length_cons] at hn
          simp only [List.length_drop]
          omega
        exact ih _ hlt _ rfl c hc

/-- The bytes delivered by the first `k` of the chunks (with at least one
chunk left undelivered) are strictly fewer than the whole body: a mid-stream
failure leaves a genuinely truncated file. -/
theorem iter_content_flatten_take_lt (sz k : Nat) (l : List Nat)
    (hk : k < (iter_content sz l).length) :
    ((iter_content sz l).take k).flatten.length < l.length := by
  have hsplit : ((iter_content sz l).take k ++ (iter_content sz l).drop k) =
      iter_content sz l := List.take_append_drop _ _
  have hdrop : (iter_content sz l).drop k =
      (iter_content sz l)[k] :: (iter_content sz l).drop (k + 1) :=
    List.drop_eq_getElem_cons hk
  have hmem : (iter_content sz l)[k] ∈ iter_content sz l := List.getElem_mem hk
  have hne : (iter_content sz l)[k] ≠ [] :=
    iter_content_chunk_ne_nil sz l _ hmem
  have hlen : 1 ≤ ((iter_content sz l)[k]).length := by
    cases hx : (iter_content sz l)[k] with
    | nil => exact absurd hx hne
    | cons b bs => simp
  have : l.length = ((iter_content sz l).take k).flatten.length +
      ((iter_content sz l).drop k).flatten.length := by
    conv_lhs => rw [← iter_content_flatten sz l, ← hsplit]
    rw [List.flatten_append _ _, List.length_append]
  rw [hdrop, List.flatten_cons, List.length_append] at this
  omega

/-! ### Helper lemmas about the progress trace -/

theorem progressTrace_length (acc : Nat) (cs : List (List Nat)) :
    (progressTrace acc cs).length = cs.length := by
  induction cs generalizing acc with
  | nil => rfl
  | cons c cs ih => simp [progressTrace, ih]

/-- The `i`-th progress report equals the cumulative number of bytes in the
first `i + 1` chunks (on top of `acc` bytes already written). -/
theorem progressTrace_getElem? (cs : List (List Nat)) (acc i : Nat)
    (h : i < cs.length) :
    (progressTrace acc cs)[i]? =
      some (acc + ((cs.take (i + 1)).flatten).length) := by
  induction cs generalizing acc i with
  | nil => simp at h
  | cons c cs ih =>
    cases i with
    | zero => simp [progressTrace]
    | succ n =>
      simp only [progressTrace, List.getElem?_cons_succ]
      rw [ih _ _ (by simp only [List.length_cons] at h; omega)]
      simp only [List.take_succ_cons, List.flatten_cons, List.length_append]
      congr 1
      omega

/-! ### Stream-delivery lemmas -/

/-- When the stream does not raise, the iterator delivers every chunk. -/
theorem deliveredChunks_of_no_raise (r : HttpResp)
    (h : streamRaises r = none) :
    deliveredChunks r = iter_content CHUNK_SIZE r.body := by
  cases hs : r.streamFail with
  | none => simp [deliveredChunks, hs]
  | some ke =>
    obtain ⟨k, e⟩ := ke
    by_cases hk : k < (iter_content CHUNK_SIZE r.body).length
    · exfalso
      have : streamRaises r = some e := by simp [streamRaises, hs, hk]
      rw [h] at this
      exact Option.noConfusion this
    · simp only [deliveredChunks, hs]
      exact List.take_of_length_le (Nat.le_of_not_lt hk)

/-- When the stream does not raise, the bytes written are exactly the body. -/
theorem delivered_flatten_of_no_raise (r : HttpResp)
    (h : streamRaises r = none) : (deliveredChunks r).flatten = r.body := by
  rw [deliveredChunks_of_no_raise r h, iter_content_flatten]

/-! ### Branch lemmas for `download_jdk` -/

/-- Directory creation fails (a regular file occupies the directory path):
the exception escapes `download_jdk`, whatever the network does. -/
theorem download_jdk_mkdir_raises (v : Nat) (net : NetBehavior) (fs : FS)
    (h : fs.fileExists (versionDir v) = true) :
    download_jdk v net fs =
      Except.error (PyExc.fileExistsError (versionDir v)) := by
  unfold download_jdk FS.mkdir
  rw [h]
  rfl

/-- `requests.get` raises a `RequestException`: outcome `NetworkError`. -/
theorem download_jdk_reqFail (v : Nat) (d : String) (fs : FS)
    (h : fs.fileExists (versionDir v) = false) :
    download_jdk v (NetBehavior.reqFail d) fs =
      Except.ok ⟨fs.mkdirAdd (versionDir v), Outcome.networkError d,
        0, [], 0⟩ := by
  unfold download_jdk FS.mkdir
  rw [h]
  rfl

/-- The resolution response is a 404: outcome `NotFound`. -/
theorem download_jdk_404 (v : Nat) (r : HttpResp) (fs : FS)
    (h : fs.fileExists (versionDir v) = false) (hst : r.status = 404) :
    download_jdk v (NetBehavior.response r) fs =
      Except.ok ⟨fs.mkdirAdd (versionDir v), Outcome.notFound v,
        0, [], 0⟩ := by
  unfold download_jdk FS.mkdir
  rw [h]
  simp [hst]

/-- The resolution response is an HTTP error other than 404: outcome
`NetworkError` carrying the status. -/
theorem download_jdk_httpError (v : Nat) (r : HttpResp) (fs : FS)
    (h : fs.fileExists (versionDir v) = false)
    (hlo : 400 ≤ r.status) (hhi : r.status < 600) (hne : r.status ≠ 404) :
    download_jdk v (NetBehavior.response r) fs =
      Except.ok ⟨fs.mkdirAdd (versionDir v),
        Outcome.networkError ("HTTP error " ++ toString r.status),
        0, [], 0⟩ := by
  unfold download_jdk FS.mkdir
  rw [h]
  simp [hlo, hhi, hne]

/-- Successful resolution, destination file already on disk: outcome
`AlreadyPresent`, nothing written, no body bytes consumed. -/
theorem download_jdk_alreadyPresent (v : Nat) (r : HttpResp) (fs : FS)
    (h : fs.fileExists (versionDir v) = false)
    (hok : ¬ (400 ≤ r.status ∧ r.status < 600))
    (hex : fs.fileExists
      (versionDir v ++ "/" ++ pathName (unquote r.finalUrl)) = true) :
    download_jdk v (NetBehavior.response r) fs =
      Except.ok ⟨fs.mkdirAdd (versionDir v),
        Outcome.alreadyPresent
          (versionDir v ++ "/" ++ pathName (unquote r.finalUrl)),
        0, [], 0⟩ := by
  unfold download_jdk FS.mkdir
  rw [h]
  simp [hok, FS.mkdirAdd_fileExists, hex]

/-- Successful resolution, destination absent, stream completes: outcome
`Downloaded`, the whole body written, progress reported per chunk. -/
theorem download_jdk_downloaded (v : Nat) (r : HttpResp) (fs : FS)
    (h : fs.fileExists (versionDir v) = false)
    (hok : ¬ (400 ≤ r.status ∧ r.status < 600))
    (hex : fs.fileExists
      (versionDir v ++ "/" ++ pathName (unquote r.finalUrl)) = false)
    (hstrm : streamRaises r = none) :
    download_jdk v (NetBehavior.response r) fs =
      Except.ok ⟨(fs.mkdirAdd (versionDir v)).writeFile
          (versionDir v ++ "/" ++ pathName (unquote r.finalUrl)) r.body,
        Outcome.downloaded
          (versionDir v ++ "/" ++ pathName (unquote r.finalUrl)),
        r.body.length,
        progressTrace 0 (iter_content CHUNK_SIZE r.body),
        r.contentLength.getD 0⟩ := by
  unfold download_jdk FS.mkdir
  rw [h]
  simp [hok, FS.mkdirAdd_fileExists, hex, hstrm,
    delivered_flatten_of_no_raise r hstrm,
    deliveredChunks_of_no_raise r hstrm]
  constructor
  · rw [iter_content_flatten]
  · have := congrArg List.length (iter_content_flatten CHUNK_SIZE r.body)
    simpa using this

/-- Successful resolution, destination absent, stream raises after `k` of the
chunks: the first `k` chunks are on disk at the destination path and the
outcome is the classified failure matching the exception kind. -/
theorem download_jdk_streamFail (v : Nat) (r : HttpResp) (fs : FS)
    (k : Nat) (e : ExcKind)
    (h : fs.fileExists (versionDir v) = false)
    (hok : ¬ (400 ≤ r.status ∧ r.status < 600))
    (hex : fs.fileExists
      (versionDir v ++ "/" ++ pathName (unquote r.finalUrl)) = false)
    (hsf : r.streamFail = some (k, e))
    (hk : k < (iter_content CHUNK_SIZE r.body).length) :
    download_jdk v (NetBehavior.response r) fs =
      Except.ok ⟨(fs.mkdirAdd (versionDir v)).writeFile
          (versionDir v ++ "/" ++ pathName (unquote r.finalUrl))
          ((iter_content CHUNK_SIZE r.body).take k).flatten,
        (match e with
          | ExcKind.requestExc =>
            Outcome.networkError "request failed mid-stream"
          | ExcKind.otherExc =>
            Outcome.unknownError "unexpected error mid-stream"),
        ((iter_content CHUNK_SIZE r.body).take k).flatten.length,
        progressTrace 0 ((iter_content CHUNK_SIZE r.body).take k),
        r.contentLength.getD 0⟩ := by
  have hraise : streamRaises r = some e := by simp [streamRaises, hsf, hk]
  have hdel : deliveredChunks r = (iter_content CHUNK_SIZE r.body).take k := by
    simp [deliveredChunks, hsf]
  unfold download_jdk FS.mkdir
  rw [h]
  cases e <;>
    simp [hok, FS.mkdirAdd_fileExists, hex, hraise, hdel]

/-! ### Totality and frame helpers for `download_jdk` -/

/-- Inverting `streamRaises r = some e`. -/
theorem streamRaises_some (r : HttpResp) (e : ExcKind)
    (h : streamRaises r = some e) :
    ∃ k, r.streamFail = some (k, e) ∧
      k < (iter_content CHUNK_SIZE r.body).length := by
  cases hs : r.streamFail with
  | none => simp [streamRaises, hs] at h
  | some ke =>
    obtain ⟨k, e'⟩ := ke
    by_cases hk : k < (iter_content CHUNK_SIZE r.body).length
    · have he : streamRaises r = some e' := by simp [streamRaises, hs, hk]
      rw [h] at he
      injection he with he
      cases he
      exact ⟨k, rfl, hk⟩
    · have he : streamRaises r = none := by simp [streamRaises, hs, hk]
      rw [h] at he
      exact Option.noConfusion he

/-- Once the version directory can be created, `download_jdk` always returns
a classified result: every later failure is caught inside the `try` block. -/
theorem download_jdk_total (v : Nat) (net : NetBehavior) (fs : FS)
    (h : fs.fileExists (versionDir v) = false) :
    ∃ res : ProcResult, download_jdk v net fs = Except.ok res := by
  cases net with
  | reqFail d => exact ⟨_, download_jdk_reqFail v d fs h⟩
  | response r =>
    by_cases hst : 400 ≤ r.status ∧ r.status < 600
    · by_cases h404 : r.status = 404
      · exact ⟨_, download_jdk_404 v r fs h h404⟩
      · exact ⟨_, download_jdk_httpError v r fs h hst.1 hst.2 h404⟩
    · by_cases hex : fs.fileExists
        (versionDir v ++ "/" ++ pathName (unquote r.finalUrl)) = true
      · exact ⟨_, download_jdk_alreadyPresent v r fs h hst hex⟩
      · have hex' : fs.fileExists
            (versionDir v ++ "/" ++ pathName (unquote r.finalUrl)) = false := by
          simpa using hex
        cases hstrm : streamRaises r with
        | none => exact ⟨_, download_jdk_downloaded v r fs h hst hex' hstrm⟩
        | some e =>
          obtain ⟨k, hsf, hk⟩ := streamRaises_some r e hstrm
          exact ⟨_, download_jdk_streamFail v r fs k e h hst hex' hsf hk⟩

/-- Shape of the filesystem after a returning `download_jdk` call: either
only the version directory was ensured, or additionally one file was written
inside the version directory, at a path that held no file beforehand. -/
theorem download_jdk_ok_fs (v : Nat) (net : NetBehavior) (fs : FS)
    (res : ProcResult) (h : download_jdk v net fs = Except.ok res) :
    res.fs = fs.mkdirAdd (versionDir v) ∨
    ∃ name c, fs.fileExists (versionDir v ++ "/" ++ name) = false ∧
      res.fs = (fs.mkdirAdd (versionDir v)).writeFile
        (versionDir v ++ "/" ++ name) c := by
  by_cases hdir : fs.fileExists (versionDir v) = true
  · rw [download_jdk_mkdir_raises v net fs hdir] at h
    exact Except.noConfusion h
  have hdir' : fs.fileExists (versionDir v) = false := by simpa using hdir
  cases net with
  | reqFail d =>
    rw [download_jdk_reqFail v d fs hdir'] at h
    injection h with h
    rw [← h]
    exact Or.inl rfl
  | response r =>
    by_cases hst : 400 ≤ r.status ∧ r.status < 600
    · by_cases h404 : r.status = 404
      · rw [download_jdk_404 v r fs hdir' h404] at h
        injection h with h
        rw [← h]
        exact Or.inl rfl
      · rw [download_jdk_httpError v r fs hdir' hst.1 hst.2 h404] at h
        injection h with h
        rw [← h]
        exact Or.inl rfl
    · by_cases hex : fs.fileExists
        (versionDir v ++ "/" ++ pathName (unquote r.finalUrl)) = true
      · rw [download_jdk_alreadyPresent v r fs hdir' hst hex] at h
        injection h with h
        rw [← h]
        exact Or.inl rfl
      · have hex' : fs.fileExists
            (versionDir v ++ "/" ++ pathName (unquote r.finalUrl)) = false := by
          simpa using hex
        cases hstrm : streamRaises r with
        | none =>
          rw [download_jdk_downloaded v r fs hdir' hst hex' hstrm] at h
          injection h with h
          rw [← h]
          exact Or.inr ⟨pathName (unquote r.finalUrl), r.body, hex', rfl⟩
        | some e =>
          obtain ⟨k, hsf, hk⟩ := streamRaises_some r e hstrm
          rw [download_jdk_streamFail v r fs k e hdir' hst hex' hsf hk] at h
          injection h with h
          rw [← h]
          exact Or.inr ⟨pathName (unquote r.finalUrl),
            ((iter_content CHUNK_SIZE r.body).take k).flatten, hex', rfl⟩

theorem FS.fileExists_writeFile_imp (fs : FS) (q : String) (c : List Nat)
    (p : String) (h : (fs.writeFile q c).fileExists p = true) :
    p = q ∨ fs.fileExists p = true := by
  unfold FS.fileExists FS.writeFile at *
  rw [List.any_cons] at h
  rcases Bool.or_eq_true _ _ |>.mp h with h1 | h2
  · exact Or.inl (beq_iff_eq.mp h1).symm
  · right
    rw [List.any_eq_true] at h2
    obtain ⟨e, he, hpe⟩ := h2
    rw [List.any_eq_true]
    exact ⟨e, (List.mem_filter.mp he).1, hpe⟩

/-- `download_jdk` never changes or removes an existing file: whatever it
writes goes to a path that held no file before the call. -/
theorem download_jdk_preserves_file (v : Nat) (net : NetBehavior) (fs : FS)
    (res : ProcResult) (p : String) (c : List Nat)
    (hp : fs.lookupFile p = some c)
    (h : download_jdk v net fs = Except.ok res) :
    res.fs.lookupFile p = some c := by
  rcases download_jdk_ok_fs v net fs res h with hfs | ⟨name, cc, hex, hfs⟩
  · rw [hfs, FS.mkdirAdd_lookupFile]
    exact hp
  · rw [hfs]
    have hpe : fs.fileExists p = true := FS.lookupFile_some_fileExists fs p c hp
    have hne : p ≠ versionDir v ++ "/" ++ name := by
      intro heq
      rw [heq] at hpe
      rw [hpe] at hex
      exact Bool.noConfusion hex
    rw [FS.lookupFile_writeFile_ne _ _ _ _ hne, FS.mkdirAdd_lookupFile]
    exact hp

theorem FS.fileExists_writeFile_self (fs : FS) (p : String) (c : List Nat) :
    (fs.writeFile p c).fileExists p = true :=
  FS.lookupFile_some_fileExists _ _ c (FS.lookupFile_writeFile_self fs p c)

theorem FS.fileExists_writeFile_false (fs : FS) (q : String) (c : List Nat)
    (p : String) (hne : p ≠ q) (h : fs.fileExists p = false) :
    (fs.writeFile q c).fileExists p = false := by
  cases hb : (fs.writeFile q c).fileExists p
  · rfl
  · rcases FS.fileExists_writeFile_imp fs q c p hb with h1 | h2
    · exact absurd h1 hne
    · rw [h2] at h
      exact Bool.noConfusion h

/-- A string is never equal to itself extended with `"/"` and a suffix. -/
theorem ne_self_append_slash (a b : String) : a ≠ a ++ "/" ++ b := by
  intro h
  have hlen := congrArg String.length h
  rw [String.length_append, String.length_append] at hlen
  have : ("/" : String).length = 1 := rfl
  omega

/-- Every file `download_jdk` writes lands inside a directory: its path
contains the `/` separator. The driver-level invariant that keeps later
`mkdir` calls from hitting a regular file. -/
theorem download_jdk_preserves_slash (v : Nat) (net : NetBehavior) (fs : FS)
    (res : ProcResult)
    (hfs : ∀ p, fs.fileExists p = true → '/' ∈ p.data)
    (h : download_jdk v net fs = Except.ok res) :
    ∀ p, res.fs.fileExists p = true → '/' ∈ p.data := by
  intro p hp
  rcases download_jdk_ok_fs v net fs res h with hfsr | ⟨name, c, hex, hfsr⟩
  · rw [hfsr, FS.mkdirAdd_fileExists] at hp
    exact hfs p hp
  · rw [hfsr] at hp
    rcases FS.fileExists_writeFile_imp _ _ _ _ hp with hpq | hp2
    · subst hpq
      rw [String.data_append]
      refine List.mem_append.mpr (Or.inl ?_)
      rw [String.data_append]
      refine List.mem_append.mpr (Or.inr ?_)
      decide
    · rw [FS.mkdirAdd_fileExists] at hp2
      exact hfs p hp2

/-- Sequential totality of the driver loop: when every requested version has
a slash-free directory name and every file on disk lies inside a directory,
the loop processes every version, one classified outcome each, whatever the
network does. -/
theorem runList_ok (net : Nat → NetBehavior) (vs : List Nat) (fs : FS)
    (hvs : ∀ v ∈ vs, ¬ '/' ∈ (versionDir v).data)
    (hfs : ∀ p, fs.fileExists p = true → '/' ∈ p.data) :
    ∃ fs' outs, runList net vs fs = Except.ok (fs', outs) ∧
      outs.length = vs.length ∧
      ∀ p, fs'.fileExists p = true → '/' ∈ p.data := by
  induction vs generalizing fs with
  | nil => exact ⟨fs, [], rfl, rfl, hfs⟩
  | cons v vs ih =>
    have hdir : fs.fileExists (versionDir v) = false := by
      cases hb : fs.fileExists (versionDir v)
      · rfl
      · exact absurd (hfs _ hb) (hvs v (List.mem_cons_self v vs))
    obtain ⟨res, hres⟩ := download_jdk_total v (net v) fs hdir
    obtain ⟨fs', outs, hrun, hlen, hfs'⟩ :=
      ih res.fs (fun u hu => hvs u (List.mem_cons_of_mem _ hu))
        (download_jdk_preserves_slash v (net v) fs res hfs hres)
    exact ⟨fs', res.outcome :: outs,
      by simp only [runList, hres, hrun],
      by simp [hlen],
      hfs'⟩

/-! ### Claim theorems -/

/-- C1 counterexample: the claim says every failure during directory
creation is caught inside `process` and converted to an outcome; but
`version_dir.mkdir` sits before the `try` block, so when a regular file
named `jdk8` occupies the directory path, `download_jdk 8` raises
`FileExistsError` (modelled as `Except.error`) instead of returning a
classified outcome — and this exception would abort the driver loop. -/
theorem C1_counterexample :
    download_jdk 8 (NetBehavior.reqFail "connection refused")
      { dirs := [], files := [("jdk8", [])] } =
      Except.error (PyExc.fileExistsError "jdk8") := by
  rfl

/-- C1 (amended): once the per-version directory has been created
successfully (no regular file occupies its path), `download_jdk` never
raises: every failure during resolution or streaming is caught inside the
`try` block and converted to exactly one of the five `FetchOutcome`
classifications; directory-creation failures, however, are outside the
`try` block and propagate. -/
theorem C1_no_raise_after_mkdir (v : Nat) (net : NetBehavior) (fs : FS)
    (hdir : fs.fileExists (versionDir v) = false) :
    ∃ res : ProcResult, download_jdk v net fs = Except.ok res :=
  download_jdk_total v net fs hdir

/-- C1 witness: on an empty filesystem, a version-8 run with a failing
network still returns a classified result. -/
theorem C1_witness :
    (FS.fileExists { dirs := [], files := [] } (versionDir 8) = false) ∧
    ∃ res : ProcResult, download_jdk 8 (NetBehavior.reqFail "timeout")
      { dirs := [], files := [] } = Except.ok res :=
  ⟨by decide, C1_no_raise_after_mkdir 8 (NetBehavior.reqFail "timeout")
    { dirs := [], files := [] } (by decide)⟩

/-- C2: when resolution succeeds (non-error status) and a file already
exists at `<jdk{v}>/<derived-name>`, the outcome is `AlreadyPresent`, the
file map is unchanged (no write anywhere), and zero body bytes are
transferred (the streamed body is never consumed). -/
theorem C2_alreadyPresent_frame (v : Nat) (r : HttpResp) (fs : FS)
    (hdir : fs.fileExists (versionDir v) = false)
    (hok : ¬ (400 ≤ r.status ∧ r.status < 600))
    (hex : fs.fileExists
      (versionDir v ++ "/" ++ pathName (unquote r.finalUrl)) = true) :
    ∃ fs1, download_jdk v (NetBehavior.response r) fs =
        Except.ok ⟨fs1,
          Outcome.alreadyPresent
            (versionDir v ++ "/" ++ pathName (unquote r.finalUrl)),
          0, [], 0⟩ ∧
      fs1.files = fs.files :=
  ⟨fs.mkdirAdd (versionDir v),
    download_jdk_alreadyPresent v r fs hdir hok hex,
    FS.mkdirAdd_files fs _⟩

/-- C2 witness: version 8, destination `jdk8/a.tar.gz` on disk, successful
resolution to the same name. -/
theorem C2_witness :
    (FS.fileExists { dirs := [], files := [("jdk8/a.tar.gz", [9, 9])] }
      (versionDir 8) = false) ∧
    (¬ (400 ≤ 200 ∧ 200 < 600)) ∧
    (FS.fileExists { dirs := [], files := [("jdk8/a.tar.gz", [9, 9])] }
      (versionDir 8 ++ "/" ++
        pathName (unquote "https://h/a.tar.gz")) = true) ∧
    ∃ fs1, download_jdk 8
        (NetBehavior.response ⟨200, "https://h/a.tar.gz", some 2, [1, 2], none⟩)
        { dirs := [], files := [("jdk8/a.tar.gz", [9, 9])] } =
        Except.ok ⟨fs1,
          Outcome.alreadyPresent
            (versionDir 8 ++ "/" ++
              pathName (unquote "https://h/a.tar.gz")),
          0, [], 0⟩ ∧
      fs1.files = [("jdk8/a.tar.gz", [9, 9])] :=
  ⟨by decide, by decide, by decide,
    C2_alreadyPresent_frame 8 ⟨200, "https://h/a.tar.gz", some 2, [1, 2], none⟩
      { dirs := [], files := [("jdk8/a.tar.gz", [9, 9])] }
      (by decide) (by decide) (by decide)⟩

/-- C3: a 404 resolution response yields `NotFound`, writes no file, and is
non-fatal: the call returns (`Except.ok`), and the driver loop goes on to
process the remaining versions. -/
theorem C3_notFound (v : Nat) (r : HttpResp) (fs : FS)
    (hdir : fs.fileExists (versionDir v) = false)
    (h404 : r.status = 404) :
    ∃ fs1, download_jdk v (NetBehavior.response r) fs =
        Except.ok ⟨fs1, Outcome.notFound v, 0, [], 0⟩ ∧
      fs1.files = fs.files ∧
      ∀ (net : Nat → NetBehavior) (vs : List Nat),
        net v = NetBehavior.response r →
        runList net (v :: vs) fs =
          (match runList net vs fs1 with
            | Except.error e => Except.error e
            | Except.ok (fs', outs) =>
              Except.ok (fs', Outcome.notFound v :: outs)) := by
  refine ⟨fs.mkdirAdd (versionDir v), download_jdk_404 v r fs hdir h404,
    FS.mkdirAdd_files fs _, ?_⟩
  intro net vs hnet
  simp only [runList]
  rw [hnet, download_jdk_404 v r fs hdir h404]

/-- C3 witness: version 12, a 404 response, empty filesystem; the driver
would continue with version 13. -/
theorem C3_witness :
    (FS.fileExists { dirs := [], files := [] } (versionDir 12) = false) ∧
    ∃ fs1, download_jdk 12
        (NetBehavior.response ⟨404, "https://api", none, [], none⟩)
        { dirs := [], files := [] } =
        Except.ok ⟨fs1, Outcome.notFound 12, 0, [], 0⟩ ∧
      fs1.files = [] ∧
      ∀ (net : Nat → NetBehavior) (vs : List Nat),
        net 12 = NetBehavior.response ⟨404, "https://api", none, [], none⟩ →
        runList net (12 :: vs) { dirs := [], files := [] } =
          (match runList net vs fs1 with
            | Except.error e => Except.error e
            | Except.ok (fs', outs) =>
              Except.ok (fs', Outcome.notFound 12 :: outs)) := by
  exact ⟨by decide, C3_notFound 12 ⟨404, "https://api", none, [], none⟩
    { dirs := [], files := [] } (by decide) (by decide)⟩

/-- C4: the per-version directory name is the pure function
`"jdk" ++ version`, and the directory is ensured (idempotently) for every
network behaviour — in particular it exists afterwards even when resolution
fails (`reqFail`, 404, HTTP error), and ensuring it again changes nothing. -/
theorem C4_directory (v : Nat) (net : NetBehavior) (fs : FS)
    (hdir : fs.fileExists (versionDir v) = false) :
    versionDir v = "jdk" ++ toString v ∧
    ∃ res : ProcResult, download_jdk v net fs = Except.ok res ∧
      res.fs.dirExists (versionDir v) = true ∧
      (fs.dirExists (versionDir v) = true → res.fs.dirs = fs.dirs) := by
  refine ⟨rfl, ?_⟩
  obtain ⟨res, hres⟩ := download_jdk_total v net fs hdir
  refine ⟨res, hres, ?_, ?_⟩
  · rcases download_jdk_ok_fs v net fs res hres with hfs | ⟨name, c, hex, hfs⟩
    · rw [hfs]
      exact FS.mkdirAdd_dirExists_self fs _
    · rw [hfs, FS.writeFile_dirExists]
      exact FS.mkdirAdd_dirExists_self fs _
  · intro hd
    rcases download_jdk_ok_fs v net fs res hres with hfs | ⟨name, c, hex, hfs⟩
    · rw [hfs, FS.mkdirAdd_of_dirExists fs _ hd]
    · rw [hfs, FS.writeFile_dirs, FS.mkdirAdd_of_dirExists fs _ hd]

/-- C4 witness: version 11 with a network failure: `jdk11` exists
afterwards, and a second run leaves the directory list unchanged. -/
theorem C4_witness :
    (FS.fileExists { dirs := ["jdk11"], files := [] } (versionDir 11)
      = false) ∧
    (versionDir 11 = "jdk" ++ toString 11 ∧
    ∃ res : ProcResult, download_jdk 11 (NetBehavior.reqFail "timeout")
        { dirs := ["jdk11"], files := [] } = Except.ok res ∧
      res.fs.dirExists (versionDir 11) = true ∧
      (FS.dirExists { dirs := ["jdk11"], files := [] } (versionDir 11) = true →
        res.fs.dirs = ["jdk11"])) :=
  ⟨by decide, C4_directory 11 (NetBehavior.reqFail "timeout")
    { dirs := ["jdk11"], files := [] } (by decide)⟩

/-- C5 counterexample: the claim says the destination file is opened for
exclusive-create binary writing; the source passes mode `'wb'` (truncating
binary write) to `open`, not the exclusive-create mode `'xb'`. -/
theorem C5_counterexample :
    download_open_mode = "wb" ∧ download_open_mode ≠ "xb" := by
  decide

/-- C5 (amended): the destination file is opened for plain binary writing
(mode `'wb'`, which would truncate an existing file), not exclusive-create;
nevertheless no existing file is ever overwritten, because the write path is
reached only when no file exists at the computed destination beforehand
(presence by computed path being the sole idempotence check): any file
present before the call has the same content after it. -/
theorem C5_never_overwrite (v : Nat) (net : NetBehavior) (fs : FS)
    (res : ProcResult) (p : String) (c : List Nat)
    (hp : fs.lookupFile p = some c)
    (h : download_jdk v net fs = Except.ok res) :
    res.fs.lookupFile p = some c :=
  download_jdk_preserves_file v net fs res p c hp h

/-- C5 witness: a pre-existing `jdk9/x.bin` keeps its content across a
version-9 run. -/
theorem C5_witness :
    (FS.lookupFile { dirs := ["jdk9"], files := [("jdk9/x.bin", [7])] }
      "jdk9/x.bin" = some [7]) ∧
    (download_jdk 9 (NetBehavior.reqFail "refused")
      { dirs := ["jdk9"], files := [("jdk9/x.bin", [7])] } =
      Except.ok ⟨{ dirs := ["jdk9"], files := [("jdk9/x.bin", [7])] },
        Outcome.networkError "refused", 0, [], 0⟩) ∧
    (FS.lookupFile { dirs := ["jdk9"], files := [("jdk9/x.bin", [7])] }
      "jdk9/x.bin" = some [7]) :=
  ⟨by decide, by rfl,
    C5_never_overwrite 9 (NetBehavior.reqFail "refused")
      { dirs := ["jdk9"], files := [("jdk9/x.bin", [7])] }
      ⟨{ dirs := ["jdk9"], files := [("jdk9/x.bin", [7])] },
        Outcome.networkError "refused", 0, [], 0⟩
      "jdk9/x.bin" [7] (by decide) (by rfl)⟩

/-- C6: on a successful download, the stored file name (and so the stored
path) is derived from the final post-redirect locator `r.url` as the last
segment of its path with percent-encoding decoded — and concretely, for a
final locator whose last segment contains the percent-encoded characters
`%2B` and `%20`, the stored name is the decoded form. -/
theorem C6_filename_derivation (v : Nat) (r : HttpResp) (fs : FS)
    (hdir : fs.fileExists (versionDir v) = false)
    (hok : ¬ (400 ≤ r.status ∧ r.status < 600))
    (hex : fs.fileExists
      (versionDir v ++ "/" ++ pathName (unquote r.finalUrl)) = false)
    (hstrm : streamRaises r = none) :
    (∃ res : ProcResult,
      download_jdk v (NetBehavior.response r) fs = Except.ok res ∧
      res.outcome = Outcome.downloaded
        (versionDir v ++ "/" ++ pathName (unquote r.finalUrl)) ∧
      res.fs.lookupFile
        (versionDir v ++ "/" ++ pathName (unquote r.finalUrl)) =
        some r.body) ∧
    pathName (unquote "https://cdn.example/dl/OpenJDK8U%2Bjdk%20x64.tar.gz") =
      "OpenJDK8U+jdk x64.tar.gz" := by
  constructor
  · exact ⟨_, download_jdk_downloaded v r fs hdir hok hex hstrm, rfl,
      FS.lookupFile_writeFile_self _ _ _⟩
  · decide

/-- C6 witness: version 8, a resolved locator with a `%2B` escape; the file
is stored under the decoded name. -/
theorem C6_witness :
    (FS.fileExists { dirs := [], files := [] } (versionDir 8) = false) ∧
    (¬ (400 ≤ 200 ∧ 200 < 600)) ∧
    (FS.fileExists { dirs := [], files := [] }
      (versionDir 8 ++ "/" ++
        pathName (unquote "https://h/dl/a%2Bb.tar.gz")) = false) ∧
    (streamRaises ⟨200, "https://h/dl/a%2Bb.tar.gz", some 2, [5, 6], none⟩
      = none) ∧
    ((∃ res : ProcResult,
      download_jdk 8
        (NetBehavior.response
          ⟨200, "https://h/dl/a%2Bb.tar.gz", some 2, [5, 6], none⟩)
        { dirs := [], files := [] } = Except.ok res ∧
      res.outcome = Outcome.downloaded
        (versionDir 8 ++ "/" ++
          pathName (unquote "https://h/dl/a%2Bb.tar.gz")) ∧
      res.fs.lookupFile
        (versionDir 8 ++ "/" ++
          pathName (unquote "https://h/dl/a%2Bb.tar.gz")) =
        some [5, 6]) ∧
    pathName (unquote "https://cdn.example/dl/OpenJDK8U%2Bjdk%20x64.tar.gz") =
      "OpenJDK8U+jdk x64.tar.gz") :=
  ⟨by decide, by decide, by decide, by decide,
    C6_filename_derivation 8
      ⟨200, "https://h/dl/a%2Bb.tar.gz", some 2, [5, 6], none⟩
      { dirs := [], files := [] } (by decide) (by decide) (by decide)
      (by decide)⟩

/-- C7: on a `Downloaded` outcome the body is consumed in chunks of at most
`CHUNK_SIZE = 8192` bytes, the cumulative byte count is reported after each
chunk (the `i`-th progress entry equals the bytes of the first `i + 1`
chunks), the file receives exactly the whole body, and the bytes transferred
equal the declared content length whenever that header is present and
truthful; the `content-length` header is unconstrained here, so the absence
case (`none`) is covered and is no error. -/
theorem C7_streaming (v : Nat) (r : HttpResp) (fs : FS)
    (hdir : fs.fileExists (versionDir v) = false)
    (hok : ¬ (400 ≤ r.status ∧ r.status < 600))
    (hex : fs.fileExists
      (versionDir v ++ "/" ++ pathName (unquote r.finalUrl)) = false)
    (hstrm : streamRaises r = none) :
    ∃ res : ProcResult,
      download_jdk v (NetBehavior.response r) fs = Except.ok res ∧
      res.outcome = Outcome.downloaded
        (versionDir v ++ "/" ++ pathName (unquote r.finalUrl)) ∧
      CHUNK_SIZE = 8192 ∧
      (∀ c ∈ iter_content CHUNK_SIZE r.body, c.length ≤ CHUNK_SIZE) ∧
      res.fs.lookupFile
        (versionDir v ++ "/" ++ pathName (unquote r.finalUrl)) =
        some r.body ∧
      res.transferred = r.body.length ∧
      res.progress.length = (iter_content CHUNK_SIZE r.body).length ∧
      (∀ i, i < (iter_content CHUNK_SIZE r.body).length →
        res.progress[i]? =
          some (((iter_content CHUNK_SIZE r.body).take (i + 1)).flatten.length)) ∧
      (∀ L, r.contentLength = some L → r.body.length = L →
        res.transferred = L) := by
  refine ⟨_, download_jdk_downloaded v r fs hdir hok hex hstrm, rfl, rfl, ?_,
    ?_, rfl, ?_, ?_, ?_⟩
  · exact iter_content_chunk_le CHUNK_SIZE (by decide) r.body
  · exact FS.lookupFile_writeFile_self _ _ _
  · exact progressTrace_length 0 _
  · intro i hi
    rw [progressTrace_getElem? _ 0 i hi, Nat.zero_add]
  · intro L hL hlen
    exact hlen

/-- C7 witness: version 10, a 3-byte body with a matching `content-length`
header, downloaded in one chunk. -/
theorem C7_witness :
    (FS.fileExists { dirs := [], files := [] } (versionDir 10) = false) ∧
    (¬ (400 ≤ 200 ∧ 200 < 600)) ∧
    (FS.fileExists { dirs := [], files := [] }
      (versionDir 10 ++ "/" ++ pathName (unquote "https://h/f.bin"))
      = false) ∧
    (streamRaises ⟨200, "https://h/f.bin", some 3, [1, 2, 3], none⟩ = none) ∧
    ∃ res : ProcResult,
      download_jdk 10
        (NetBehavior.response ⟨200, "https://h/f.bin", some 3, [1, 2, 3], none⟩)
        { dirs := [], files := [] } = Except.ok res ∧
      res.outcome = Outcome.downloaded
        (versionDir 10 ++ "/" ++ pathName (unquote "https://h/f.bin")) ∧
      CHUNK_SIZE = 8192 ∧
      (∀ c ∈ iter_content CHUNK_SIZE [1, 2, 3], c.length ≤ CHUNK_SIZE) ∧
      res.fs.lookupFile
        (versionDir 10 ++ "/" ++ pathName (unquote "https://h/f.bin")) =
        some [1, 2, 3] ∧
      res.transferred = List.length [1, 2, 3] ∧
      res.progress.length = (iter_content CHUNK_SIZE [1, 2, 3]).length ∧
      (∀ i, i < (iter_content CHUNK_SIZE [1, 2, 3]).length →
        res.progress[i]? =
          some (((iter_content CHUNK_SIZE [1, 2, 3]).take (i + 1)).flatten.length)) ∧
      (∀ L, (some 3 : Option Nat) = some L → List.length [1, 2, 3] = L →
        res.transferred = L) :=
  ⟨by decide, by decide, by decide, by decide,
    C7_streaming 10 ⟨200, "https://h/f.bin", some 3, [1, 2, 3], none⟩
      { dirs := [], files := [] } (by decide) (by decide) (by decide)
      (by decide)⟩

/-- C8: the driver's version list is exactly the ascending inclusive range 8
through 21, and for any network behaviour, as long as every file on disk
lies inside a directory (true of the layout this program ever produces),
`main`'s loop runs `download_jdk` to completion once per version — fourteen
classified outcomes, no early termination on any version's failure. -/
theorem C8_driver (net : Nat → NetBehavior) (fs : FS)
    (hfs : ∀ p, fs.fileExists p = true → '/' ∈ p.data) :
    JDK_VERSIONS = [8, 9, 10, 11, 12, 13, 14, 15, 16, 17, 18, 19, 20, 21] ∧
    ∃ fs' outs, runAll net fs = Except.ok (fs', outs) ∧
      outs.length = JDK_VERSIONS.length := by
  refine ⟨by decide, ?_⟩
  obtain ⟨fs', outs, h1, h2, _⟩ :=
    runList_ok net JDK_VERSIONS fs (by decide) hfs
  exact ⟨fs', outs, h1, h2⟩

/-- C8 witness: on an empty filesystem with the network down, all fourteen
versions still get processed. -/
theorem C8_witness :
    (∀ p, FS.fileExists { dirs := [], files := [] } p = true →
      '/' ∈ p.data) ∧
    (JDK_VERSIONS = [8, 9, 10, 11, 12, 13, 14, 15, 16, 17, 18, 19, 20, 21] ∧
    ∃ fs' outs, runAll (fun _ => NetBehavior.reqFail "down")
        { dirs := [], files := [] } = Except.ok (fs', outs) ∧
      outs.length = JDK_VERSIONS.length) := by
  have hfs : ∀ p, FS.fileExists { dirs := [], files := [] } p = true →
      '/' ∈ p.data := by
    intro p hp
    simp [FS.fileExists] at hp
  exact ⟨hfs, C8_driver (fun _ => NetBehavior.reqFail "down")
    { dirs := [], files := [] } hfs⟩

/-- C9 (implicit): the GET and its status check come before the
destination-existence test, so when the network is unavailable
(`requests.get` raises), the outcome is `NetworkError` — not
`AlreadyPresent` — even though the destination file already sits on disk. -/
theorem C9_network_error_despite_file (v : Nat) (d : String) (fs : FS)
    (fname : String)
    (hex : fs.fileExists (versionDir v ++ "/" ++ fname) = true)
    (hdir : fs.fileExists (versionDir v) = false) :
    download_jdk v (NetBehavior.reqFail d) fs =
      Except.ok ⟨fs.mkdirAdd (versionDir v), Outcome.networkError d,
        0, [], 0⟩ :=
  download_jdk_reqFail v d fs hdir

/-- C9 witness: `jdk8/a.tar.gz` exists, the network is down, and the result
is `NetworkError`, not `AlreadyPresent`. -/
theorem C9_witness :
    (FS.fileExists { dirs := ["jdk8"], files := [("jdk8/a.tar.gz", [1])] }
      (versionDir 8 ++ "/" ++ "a.tar.gz") = true) ∧
    (FS.fileExists { dirs := ["jdk8"], files := [("jdk8/a.tar.gz", [1])] }
      (versionDir 8) = false) ∧
    download_jdk 8 (NetBehavior.reqFail "dns failure")
      { dirs := ["jdk8"], files := [("jdk8/a.tar.gz", [1])] } =
      Except.ok ⟨FS.mkdirAdd
          { dirs := ["jdk8"], files := [("jdk8/a.tar.gz", [1])] }
          (versionDir 8),
        Outcome.networkError "dns failure", 0, [], 0⟩ :=
  ⟨by decide, by decide,
    C9_network_error_despite_file 8 "dns failure"
      { dirs := ["jdk8"], files := [("jdk8/a.tar.gz", [1])] }
      "a.tar.gz" (by decide) (by decide)⟩

/-- C10 (implicit): the stream is written directly to the final destination
path (no temporary file), so a mid-stream failure leaves a strictly partial
file at that exact path with a classified (non-`Downloaded`) outcome; any
later run whose resolution succeeds with the same derived name then reports
`AlreadyPresent`, transfers zero bytes, and leaves the truncated content in
place — it never re-downloads or repairs it. -/
theorem C10_partial_file_poisons (v : Nat) (r : HttpResp) (fs : FS)
    (k : Nat) (e : ExcKind)
    (hdir : fs.fileExists (versionDir v) = false)
    (hok : ¬ (400 ≤ r.status ∧ r.status < 600))
    (hex : fs.fileExists
      (versionDir v ++ "/" ++ pathName (unquote r.finalUrl)) = false)
    (hsf : r.streamFail = some (k, e))
    (hk : k < (iter_content CHUNK_SIZE r.body).length) :
    ∃ res1 : ProcResult,
      download_jdk v (NetBehavior.response r) fs = Except.ok res1 ∧
      res1.fs.lookupFile
        (versionDir v ++ "/" ++ pathName (unquote r.finalUrl)) =
        some ((iter_content CHUNK_SIZE r.body).take k).flatten ∧
      ((iter_content CHUNK_SIZE r.body).take k).flatten.length <
        r.body.length ∧
      res1.outcome = (match e with
        | ExcKind.requestExc => Outcome.networkError "request failed mid-stream"
        | ExcKind.otherExc => Outcome.unknownError "unexpected error mid-stream") ∧
      ∀ r2 : HttpResp, ¬ (400 ≤ r2.status ∧ r2.status < 600) →
        pathName (unquote r2.finalUrl) = pathName (unquote r.finalUrl) →
        ∃ res2 : ProcResult,
          download_jdk v (NetBehavior.response r2) res1.fs =
            Except.ok res2 ∧
          res2.outcome = Outcome.alreadyPresent
            (versionDir v ++ "/" ++ pathName (unquote r.finalUrl)) ∧
          res2.transferred = 0 ∧
          res2.fs.lookupFile
            (versionDir v ++ "/" ++ pathName (unquote r.finalUrl)) =
            some ((iter_content CHUNK_SIZE r.body).take k).flatten := by
  refine ⟨_, download_jdk_streamFail v r fs k e hdir hok hex hsf hk,
    FS.lookupFile_writeFile_self _ _ _,
    iter_content_flatten_take_lt CHUNK_SIZE k r.body hk,
    rfl, ?_⟩
  intro r2 hok2 hname
  have hdir2 : ((fs.mkdirAdd (versionDir v)).writeFile
      (versionDir v ++ "/" ++ pathName (unquote r.finalUrl))
      ((iter_content CHUNK_SIZE r.body).take k).flatten).fileExists
      (versionDir v) = false := by
    refine FS.fileExists_writeFile_false _ _ _ _
      (ne_self_append_slash _ _) ?_
    rw [FS.mkdirAdd_fileExists]
    exact hdir
  have hex2 : ((fs.mkdirAdd (versionDir v)).writeFile
      (versionDir v ++ "/" ++ pathName (unquote r.finalUrl))
      ((iter_content CHUNK_SIZE r.body).take k).flatten).fileExists
      (versionDir v ++ "/" ++ pathName (unquote r2.finalUrl)) = true := by
    rw [hname]
    exact FS.fileExists_writeFile_self _ _ _
  refine ⟨_, download_jdk_alreadyPresent v r2 _ hdir2 hok2 hex2, ?_, rfl, ?_⟩
  · rw [hname]
  · rw [FS.mkdirAdd_lookupFile]
    exact FS.lookupFile_writeFile_self _ _ _

/-- C10 witness: a stream that dies before the first chunk leaves an empty
`jdk8/f.bin`; a later successful resolution to the same name reports
`AlreadyPresent` with zero bytes transferred and the empty file intact. -/
theorem C10_witness :
    (FS.fileExists { dirs := [], files := [] } (versionDir 8) = false) ∧
    (¬ (400 ≤ 200 ∧ 200 < 600)) ∧
    (FS.fileExists { dirs := [], files := [] }
      (versionDir 8 ++ "/" ++ pathName (unquote "https://h/f.bin"))
      = false) ∧
    (HttpResp.streamFail
      ⟨200, "https://h/f.bin", some 3, [1, 2, 3],
        some (0, ExcKind.requestExc)⟩ = some (0, ExcKind.requestExc)) ∧
    (0 < (iter_content CHUNK_SIZE [1, 2, 3]).length) ∧
    ∃ res1 : ProcResult,
      download_jdk 8
        (NetBehavior.response
          ⟨200, "https://h/f.bin", some 3, [1, 2, 3],
            some (0, ExcKind.requestExc)⟩)
        { dirs := [], files := [] } = Except.ok res1 ∧
      res1.fs.lookupFile
        (versionDir 8 ++ "/" ++ pathName (unquote "https://h/f.bin")) =
        some ((iter_content CHUNK_SIZE [1, 2, 3]).take 0).flatten ∧
      ((iter_content CHUNK_SIZE [1, 2, 3]).take 0).flatten.length <
        List.length [1, 2, 3] ∧
      res1.outcome = Outcome.networkError "request failed mid-stream" ∧
      ∀ r2 : HttpResp, ¬ (400 ≤ r2.status ∧ r2.status < 600) →
        pathName (unquote r2.finalUrl) =
          pathName (unquote "https://h/f.bin") →
        ∃ res2 : ProcResult,
          download_jdk 8 (NetBehavior.response r2) res1.fs =
            Except.ok res2 ∧
          res2.outcome = Outcome.alreadyPresent
            (versionDir 8 ++ "/" ++ pathName (unquote "https://h/f.bin")) ∧
          res2.transferred = 0 ∧
          res2.fs.lookupFile
            (versionDir 8 ++ "/" ++ pathName (unquote "https://h/f.bin")) =
            some ((iter_content CHUNK_SIZE [1, 2, 3]).take 0).flatten := by
  have hk : 0 < (iter_content CHUNK_SIZE [1, 2, 3]).length := by
    rw [iter_content_cons]
    simp
  exact ⟨by decide, by decide, by decide, by decide, hk,
    C10_partial_file_poisons 8
      ⟨200, "https://h/f.bin", some 3, [1, 2, 3],
        some (0, ExcKind.requestExc)⟩
      { dirs := [], files := [] } 0 ExcKind.requestExc
      (by decide) (by decide) (by decide) (by decide) hk⟩

end JdkFetch
